import Mathlib

/-!
Verification model of the biometric authentication decision engine found in
src/services/mockBackend.ts of the access-control-system repository.

The engine state (statistics, global lockdown record, per-origin rate-limit
table, per-identity impersonation counters, user directory, audit log,
session table) is embedded as an explicit record `BackendState`; each
operation of the source module becomes a pure function from a state and a
clock reading to a new state and a result, mirroring the source control flow
statement by statement.

Floating-point leaf functions of the source (the string hash used for
template integrity, the cosine-similarity scorer and the variance liveness
proxy) are modelled as abstract parameters gathered in `Leaves`: every
property considered here depends only on comparisons of their outputs, never
on their numeric internals.  Scores and thresholds are rational numbers.
All `Date.now()` readings inside a single call are modelled as one `now`
argument (the source only compares timestamps across calls).  Audit events
keep their type, severity, source and user fields; the free-text `details`
string, the event id and the timestamp are dropped since no property reads
them.  Session token strings are derived from the clock instead of
`Math.random()`; no property reads their value.
-/

/-- Severity of an audit event, as in the SecurityLog type of the source. -/
inductive Severity where
  | INFO
  | WARNING
  | CRITICAL
deriving DecidableEq, Repr

/-- Verification method argument of verifyUser. -/
inductive Method where
  | FACE
  | FINGERPRINT
deriving DecidableEq, Repr

/-- Enrollment algorithm tag of a biometric template. -/
inductive Algorithm where
  | FaceID_v4
  | Fingerprint_SHA256
deriving DecidableEq, Repr

/-- Audit log entry (id, timestamp and free-text details omitted; see the
file header). -/
structure SecurityLog where
  eventType : String
  severity : Severity
  sourceIp : String
  username : Option String := none
  userId : Option String := none
deriving DecidableEq, Repr

/-- Entry of the impersonation tracker: Map Username to fails/blockedUntil. -/
structure ImpersonationRecord where
  fails : Nat
  blockedUntil : Nat
deriving DecidableEq, Repr

/-- The four confusion counters of the module state. -/
structure Stats where
  trueAccepts : Nat
  falseRejects : Nat
  trueRejects : Nat
  falseAccepts : Nat
deriving DecidableEq, Repr

/-- Global system lock state. -/
structure GlobalLockdown where
  active : Bool
  expiresAt : Nat
  triggeredBy : String
deriving DecidableEq, Repr

/-- Stored biometric template of an enrolled user.  The digest and salt are
opaque strings; the recomputation of the digest is the abstract leaf
`Leaves.secureHash`. -/
structure BiometricTemplate where
  userId : String
  algorithm : Algorithm
  embedding : List ℚ
  dataHash : String
  salt : String
  webAuthnCredentialId : Option String := none
deriving DecidableEq, Repr

/-- Directory entry for one identity. -/
structure User where
  id : String
  username : String
  role : String
  enrolled : Bool
  biometricTemplate : Option BiometricTemplate := none
deriving DecidableEq, Repr

/-- Active session record, keyed by the access token. -/
structure Session where
  userId : String
  ip : String
  expires : Nat
  role : String
deriving DecidableEq, Repr

/-- Result record of verifyUser and finalizeAuth; optional fields of the
TypeScript AuthResponse become Option fields. -/
structure AuthResponse where
  success : Bool
  message : String
  similarityScore : ℚ
  isBlocked : Option Bool := none
  retryAfter : Option Nat := none
  accessToken : Option String := none
  refreshToken : Option String := none
  expiresIn : Option Nat := none
deriving DecidableEq, Repr

/-- Result of checkSystemLock. -/
structure LockView where
  locked : Bool
  remaining : Nat
deriving DecidableEq, Repr

/-- Whole mutable module state of mockBackend.ts.  Maps become association
lists. -/
structure BackendState where
  GLOBAL_THRESHOLD : ℚ
  stats : Stats
  globalLockdown : GlobalLockdown
  rateLimitStore : List (String × List Nat)
  impersonationStore : List (String × ImpersonationRecord)
  users : List User
  logs : List SecurityLog
  activeSessions : List (String × Session)
deriving DecidableEq, Repr

/-- Abstract leaf functions of the engine (see the file header): the salted
digest, the variance liveness proxy and the cosine-similarity scorer. -/
structure Leaves where
  secureHash : List ℚ → String → String
  calculateVariance : List ℚ → ℚ
  calculateSimilarity : List ℚ → List ℚ → ℚ

-- Configuration constants of the source module.

def RATE_LIMIT_WINDOW_MS : Nat := 60 * 1000

def MAX_ATTEMPTS_PER_WINDOW : Nat := 5

def TOKEN_EXPIRY_MS : Nat := 15 * 60 * 1000

def IMPERSONATION_THRESHOLD : Nat := 3

def SYSTEM_LOCKDOWN_MS : Nat := 60 * 1000

-- Association-list operations mirroring Map.get / Map.set / Map.delete.

def alistGet {β : Type} : List (String × β) → String → Option β
  | [], _ => none
  | (k, v) :: rest, key => if k = key then some v else alistGet rest key

def alistSet {β : Type} : List (String × β) → String → β → List (String × β)
  | [], key, v => [(key, v)]
  | (k, w) :: rest, key, v =>
      if k = key then (key, v) :: rest else (k, w) :: alistSet rest key v

def alistDelete {β : Type} : List (String × β) → String → List (String × β)
  | [], _ => []
  | (k, w) :: rest, key =>
      if k = key then alistDelete rest key else (k, w) :: alistDelete rest key

/-- logEvent of the source: prepend the event and keep the newest 100. -/
def logEvent (logs : List SecurityLog) (e : SecurityLog) : List SecurityLog :=
  (e :: logs).take 100

/-- Number of logged events with the given type and severity. -/
def countEvents (logs : List SecurityLog) (ty : String) (sev : Severity) : Nat :=
  (logs.filter (fun e => e.eventType = ty ∧ e.severity = sev)).length

/-- checkRateLimit of the source: prune the per-origin timestamp list to the
trailing window, reject (recording the pruned list only) when the pruned
count is at the limit, logging the RATE_LIMIT_EXCEEDED warning whenever the
pruned count equals the limit exactly; otherwise append now and admit. -/
def checkRateLimit (st : BackendState) (ip : String) (now : Nat) :
    BackendState × Bool :=
  let attempts := (alistGet st.rateLimitStore ip).getD []
  let recentAttempts := attempts.filter (fun t => now - t < RATE_LIMIT_WINDOW_MS)
  if MAX_ATTEMPTS_PER_WINDOW ≤ recentAttempts.length then
    let logs :=
      if recentAttempts.length = MAX_ATTEMPTS_PER_WINDOW then
        logEvent st.logs
          { eventType := "RATE_LIMIT_EXCEEDED", severity := .WARNING, sourceIp := ip }
      else st.logs
    ({ st with
        rateLimitStore := alistSet st.rateLimitStore ip recentAttempts,
        logs := logs },
     false)
  else
    ({ st with
        rateLimitStore := alistSet st.rateLimitStore ip (recentAttempts ++ [now]) },
     true)

/-- checkSystemLock of the source: lazily lift an expired lock (logging an
INFO SYSTEM_ALERT once), otherwise report the remaining whole seconds
rounded up. -/
def checkSystemLock (st : BackendState) (now : Nat) : BackendState × LockView :=
  if st.globalLockdown.active then
    if st.globalLockdown.expiresAt < now then
      ({ st with
          globalLockdown :=
            { st.globalLockdown with active := false, triggeredBy := "" },
          logs := logEvent st.logs
            { eventType := "SYSTEM_ALERT", severity := .INFO, sourceIp := "SYSTEM" } },
       { locked := false, remaining := 0 })
    else
      (st, { locked := true,
             remaining := (st.globalLockdown.expiresAt - now + 999) / 1000 })
  else
    (st, { locked := false, remaining := 0 })

/-- setThreshold of the source: refuse while locked; log a CRITICAL
SYSTEM_ALERT for values below 0.5; then install the value unconditionally
and log the CONFIG_CHANGE warning. -/
def setThreshold (st : BackendState) (newThreshold : ℚ) (now : Nat) :
    BackendState :=
  let r0 := checkSystemLock st now
  if r0.2.locked then r0.1
  else
    let st1 := r0.1
    let logs1 :=
      if newThreshold < 1 / 2 then
        logEvent st1.logs
          { eventType := "SYSTEM_ALERT", severity := .CRITICAL,
            sourceIp := "ADMIN_CONSOLE", username := some "admin_alice" }
      else st1.logs
    { st1 with
        GLOBAL_THRESHOLD := newThreshold,
        logs := logEvent logs1
          { eventType := "CONFIG_CHANGE", severity := .WARNING,
            sourceIp := "ADMIN_CONSOLE", username := some "admin_alice" } }

/-- finalizeAuth of the source: classify against the global threshold,
update the confusion counters, clear or increment the impersonation
counter, trigger the global lockdown at the impersonation threshold, and
otherwise issue a session or report a normal rejection. -/
def finalizeAuth (st : BackendState) (user : User) (score : ℚ)
    (contextIp : String) (method : Method) (isAttack : Bool) (now : Nat) :
    BackendState × AuthResponse :=
  let threshold := st.GLOBAL_THRESHOLD
  let isMatch := threshold ≤ score
  if isMatch then
    let stats1 :=
      if isAttack then { st.stats with falseAccepts := st.stats.falseAccepts + 1 }
      else { st.stats with trueAccepts := st.stats.trueAccepts + 1 }
    let st1 :=
      { st with
          stats := stats1,
          impersonationStore := alistDelete st.impersonationStore user.username }
    let accessToken := "jwt_access_" ++ toString now
    let refreshToken := "jwt_refresh_" ++ toString now
    let st2 := { st1 with
        activeSessions := alistSet st1.activeSessions accessToken
          { userId := user.id, ip := contextIp, expires := now + TOKEN_EXPIRY_MS,
            role := user.role },
        logs := logEvent st1.logs
          { eventType :=
              (match method with
               | .FINGERPRINT => "FINGERPRINT_AUTH_SUCCESS"
               | .FACE => "AUTH_SUCCESS"),
            severity := .INFO, sourceIp := contextIp,
            username := some user.username, userId := some user.id } }
    (st2, { success := true, message := "Identity Verified",
            similarityScore := score, accessToken := some accessToken,
            refreshToken := some refreshToken,
            expiresIn := some (TOKEN_EXPIRY_MS / 1000) })
  else
    let stats1 :=
      if isAttack then { st.stats with trueRejects := st.stats.trueRejects + 1 }
      else { st.stats with falseRejects := st.stats.falseRejects + 1 }
    let record := (alistGet st.impersonationStore user.username).getD
      { fails := 0, blockedUntil := 0 }
    let newFails := record.fails + 1
    let st1 :=
      { st with
          stats := stats1,
          impersonationStore := alistSet st.impersonationStore user.username
            { fails := newFails, blockedUntil := 0 } }
    if IMPERSONATION_THRESHOLD ≤ newFails then
      let st2 := { st1 with
          globalLockdown :=
            { active := true, expiresAt := now + SYSTEM_LOCKDOWN_MS,
              triggeredBy := user.username },
          logs := logEvent st1.logs
            { eventType := "SYSTEM_SECURITY_LOCKDOWN", severity := .CRITICAL,
              sourceIp := contextIp, username := some user.username,
              userId := some user.id } }
      (st2, { success := false, message := "CRITICAL SECURITY ALERT: System Locked.",
              similarityScore := score, isBlocked := some true,
              retryAfter := some (SYSTEM_LOCKDOWN_MS / 1000) })
    else
      let st2 := { st1 with
          logs := logEvent st1.logs
            { eventType :=
                (match method with
                 | .FINGERPRINT => "FINGERPRINT_AUTH_FAILURE"
                 | .FACE => "AUTH_FAILURE"),
              severity := .WARNING, sourceIp := contextIp,
              username := some user.username, userId := some user.id } }
      (st2, { success := false, message := "Identity Verification Failed",
              similarityScore := score })

/-- verifyUser of the source: global lock check, rate-limit check, identity
lookup, algorithm match check, WebAuthn bypass, liveness check, integrity
check, similarity scoring, finalization.  The local `threshold` binding of
the source (thresholdOverride with the global threshold as fallback) is
mirrored as a binding that is never read afterwards, exactly as in the
source. -/
def verifyUser (L : Leaves) (st : BackendState) (userId : String)
    (inputEmbedding : Option (List ℚ)) (thresholdOverride : Option ℚ)
    (contextIp : String) (isAttack : Bool) (method : Method) (now : Nat) :
    BackendState × AuthResponse :=
  -- 0. global system lock check
  let r0 := checkSystemLock st now
  if r0.2.locked then
    (r0.1, { success := false,
             message := "SYSTEM LOCKED. Threat containment active. Retry in " ++
               toString r0.2.remaining ++ "s.",
             similarityScore := 0, isBlocked := some true,
             retryAfter := some r0.2.remaining })
  else
    -- 1. rate limit check
    let r1 := checkRateLimit r0.1 contextIp now
    if r1.2 = false then
      (r1.1, { success := false,
               message := "Too many attempts. Access blocked for 60s.",
               similarityScore := 0 })
    else
      let st1 := r1.1
      let user? := st1.users.find? (fun u => u.id = userId)
      let _threshold := thresholdOverride.getD st1.GLOBAL_THRESHOLD
      match user? with
      | none =>
          ({ st1 with
               logs := logEvent st1.logs
                 { eventType :=
                     (match method with
                      | .FINGERPRINT => "FINGERPRINT_AUTH_FAILURE"
                      | .FACE => "AUTH_FAILURE"),
                   severity := .WARNING, sourceIp := contextIp,
                   userId := some userId } },
           { success := false, message := "Identity not found or not enrolled",
             similarityScore := 0 })
      | some user =>
        match user.biometricTemplate with
        | none =>
            ({ st1 with
                 logs := logEvent st1.logs
                   { eventType :=
                       (match method with
                        | .FINGERPRINT => "FINGERPRINT_AUTH_FAILURE"
                        | .FACE => "AUTH_FAILURE"),
                     severity := .WARNING, sourceIp := contextIp,
                     userId := some userId } },
             { success := false, message := "Identity not found or not enrolled",
               similarityScore := 0 })
        | some tmpl =>
          let expectedAlgo : Algorithm :=
            match method with
            | .FINGERPRINT => .Fingerprint_SHA256
            | .FACE => .FaceID_v4
          if tmpl.algorithm ≠ expectedAlgo then
            (st1, { success := false, message := "Biometric Mismatch",
                    similarityScore := 0 })
          else
            -- WebAuthn bypass path
            if method = .FINGERPRINT ∧ tmpl.webAuthnCredentialId.isSome then
              match inputEmbedding with
              | none =>
                  (st1, { success := false, message := "WebAuthn Verification Failed",
                          similarityScore := 0 })
              | some emb =>
                  if emb = [] then
                    (st1, { success := false,
                            message := "WebAuthn Verification Failed",
                            similarityScore := 0 })
                  else
                    finalizeAuth st1 user (99 / 100) contextIp method isAttack now
            else
              match inputEmbedding with
              | none =>
                  (st1, { success := false, message := "No biometric data",
                          similarityScore := 0 })
              | some emb =>
                -- 2. liveness check
                if method = .FACE ∧ L.calculateVariance emb < 1 / 50 then
                  ({ st1 with
                       logs := logEvent st1.logs
                         { eventType := "AUTH_FAILURE", severity := .WARNING,
                           sourceIp := contextIp, username := some user.username,
                           userId := some user.id } },
                   { success := false, message := "Liveness Check Failed",
                     similarityScore := 0 })
                else
                  -- 3. integrity check
                  let computedHash := L.secureHash tmpl.embedding tmpl.salt
                  if computedHash ≠ tmpl.dataHash then
                    ({ st1 with
                         logs := logEvent st1.logs
                           { eventType := "SYSTEM_ALERT", severity := .CRITICAL,
                             sourceIp := "SYSTEM_INTERNAL",
                             username := some user.username, userId := some user.id } },
                     { success := false,
                       message := "CRITICAL: Data Integrity Violation. Account Locked.",
                       similarityScore := 0 })
                  else
                    -- 4. matching engine
                    finalizeAuth st1 user
                      (L.calculateSimilarity emb tmpl.embedding)
                      contextIp method isAttack now

/-- Initial module state of the source: default threshold 0.94, zero
counters, no lock, empty stores. -/
def initialState : BackendState :=
  { GLOBAL_THRESHOLD := 94 / 100,
    stats := { trueAccepts := 0, falseRejects := 0, trueRejects := 0, falseAccepts := 0 },
    globalLockdown := { active := false, expiresAt := 0, triggeredBy := "" },
    rateLimitStore := [],
    impersonationStore := [],
    users := [],
    logs := [],
    activeSessions := [] }
-- Concrete fixtures

def constLeaves (q : ℚ) : Leaves :=
  { secureHash := fun _ _ => "h",
    calculateVariance := fun _ => 1,
    calculateSimilarity := fun _ _ => q }

def faceTemplate : BiometricTemplate :=
  { userId := "u1", algorithm := .FaceID_v4, embedding := [1/2],
    dataHash := "h", salt := "s" }

def alice : User :=
  { id := "u1", username := "alice", role := "USER", enrolled := true,
    biometricTemplate := some faceTemplate }

def stAlice : BackendState := { initialState with users := [alice] }

def fpTemplate : BiometricTemplate :=
  { userId := "u2", algorithm := .Fingerprint_SHA256, embedding := [1],
    dataHash := "TAMPERED", salt := "s", webAuthnCredentialId := some "cred" }

def bob : User :=
  { id := "u2", username := "bob", role := "USER", enrolled := true,
    biometricTemplate := some fpTemplate }

def stBob : BackendState := { initialState with users := [bob] }

def lockedState : BackendState :=
  { initialState with globalLockdown := { active := true, expiresAt := 60000, triggeredBy := "alice" } }

/-- Sequence of checkRateLimit calls for one origin at the given times. -/
def runRateChecks (st : BackendState) (ip : String) : List Nat → BackendState × List Bool
  | [] => (st, [])
  | t :: ts =>
      let r := checkRateLimit st ip t
      let rest := runRateChecks r.1 ip ts
      (rest.1, r.2 :: rest.2)
def tamperedTemplate : BiometricTemplate :=
  { userId := "u3", algorithm := .FaceID_v4, embedding := [1/2],
    dataHash := "BAD", salt := "s" }

def carol : User :=
  { id := "u3", username := "carol", role := "USER", enrolled := true,
    biometricTemplate := some tamperedTemplate }

def stCarol : BackendState := { initialState with users := [carol] }
def stRelock : BackendState :=
  { initialState with
      users := [alice],
      globalLockdown := { active := true, expiresAt := 60000, triggeredBy := "alice" },
      impersonationStore := [("alice", { fails := 3, blockedUntil := 0 })] }
-- Helper lemmas

theorem alistGet_set_self {β : Type} (m : List (String × β)) (k : String) (v : β) :
    alistGet (alistSet m k v) k = some v := by
  induction m with
  | nil => simp [alistSet, alistGet]
  | cons p rest ih =>
      obtain ⟨k0, w⟩ := p
      by_cases h : k0 = k
      · simp [alistSet, h, alistGet]
      · simp [alistSet, h, alistGet, ih]

theorem alistGet_delete_self {β : Type} (m : List (String × β)) (k : String) :
    alistGet (alistDelete m k) k = none := by
  induction m with
  | nil => simp [alistDelete, alistGet]
  | cons p rest ih =>
      obtain ⟨k0, w⟩ := p
      by_cases h : k0 = k
      · simp [alistDelete, h, ih]
      · simp [alistDelete, h, alistGet, ih]

theorem logEvent_eq_cons (logs : List SecurityLog) (e : SecurityLog)
    (hlen : logs.length ≤ 99) : logEvent logs e = e :: logs := by
  unfold logEvent
  apply List.take_of_length_le
  simp
  omega

theorem countEvents_cons_match (logs : List SecurityLog) (e : SecurityLog)
    (ty : String) (sev : Severity) (h1 : e.eventType = ty) (h2 : e.severity = sev) :
    countEvents (e :: logs) ty sev = countEvents logs ty sev + 1 := by
  simp [countEvents, List.filter_cons, h1, h2]

theorem countEvents_cons_noMatch (logs : List SecurityLog) (e : SecurityLog)
    (ty : String) (sev : Severity) (h : ¬ (e.eventType = ty ∧ e.severity = sev)) :
    countEvents (e :: logs) ty sev = countEvents logs ty sev := by
  simp [countEvents, List.filter_cons, h]

theorem ceil_thousand (d : Nat) : ⌈(d : ℚ) / 1000⌉₊ = (d + 999) / 1000 := by
  rcases eq_or_ne d 0 with rfl | hd
  · norm_num
  · have h1000 : (0 : ℚ) < 1000 := by norm_num
    have hne : (d + 999) / 1000 ≠ 0 := by omega
    rw [Nat.ceil_eq_iff hne]
    constructor
    · rw [lt_div_iff₀ h1000]
      have : ((d + 999) / 1000 - 1) * 1000 < d := by omega
      exact_mod_cast this
    · rw [div_le_iff₀ h1000]
      have : d ≤ ((d + 999) / 1000) * 1000 := by omega
      exact_mod_cast this
-- C1

/-- C1: the claim that thresholdOverride decides the match is false in the
code: verifyUser never reads it. -/
theorem C1_thresholdOverride_ignored :
    (∀ (L : Leaves) (st : BackendState) (userId : String)
        (emb : Option (List ℚ)) (o1 o2 : Option ℚ) (ip : String)
        (atk : Bool) (m : Method) (now : Nat),
        verifyUser L st userId emb o1 ip atk m now =
          verifyUser L st userId emb o2 ip atk m now) ∧
    (verifyUser (constLeaves (1/2)) stAlice "u1" (some [1/2]) (some (1/2)) "ip"
        false .FACE 0).2.success = false ∧
    ((1 : ℚ)/2 ≤ 1/2) := by
  refine ⟨fun L st userId emb o1 o2 ip atk m now => rfl, ?_, by norm_num⟩
  norm_num [verifyUser, checkSystemLock, checkRateLimit, finalizeAuth, stAlice,
    initialState, alice, faceTemplate, constLeaves, alistGet, alistSet,
    alistDelete, logEvent, RATE_LIMIT_WINDOW_MS, MAX_ATTEMPTS_PER_WINDOW,
    IMPERSONATION_THRESHOLD, SYSTEM_LOCKDOWN_MS, TOKEN_EXPIRY_MS,
    List.filter, List.find?, Option.getD]
-- C2

/-- C2: seven attempts of one origin inside a single window make the code
emit the RATE_LIMIT_EXCEEDED warning twice (on the sixth and the seventh
attempt), not exactly once as the claim states. -/
theorem C2_warning_every_rejection :
    (runRateChecks initialState "10.0.0.1" [0, 1, 2, 3, 4, 5, 6]).2 =
      [true, true, true, true, true, false, false] ∧
    countEvents (runRateChecks initialState "10.0.0.1" [0, 1, 2, 3, 4, 5, 6]).1.logs
      "RATE_LIMIT_EXCEEDED" .WARNING = 2 := by
  constructor <;> decide
-- C3

/-- C3: counterexample: setThreshold 0.4 on an unlocked system leaves the
effective threshold at 0.4, below the claimed enforced minimum 0.5. -/
theorem C3_counterexample :
    (setThreshold initialState (2/5) 0).GLOBAL_THRESHOLD = 2/5 ∧ ((2 : ℚ)/5) < 1/2 := by
  constructor
  · norm_num [setThreshold, checkSystemLock, initialState, logEvent]
  · norm_num

/-- C3 amended: on an unlocked system a value below 0.5 does emit one
CRITICAL SYSTEM_ALERT audit event, but the value is installed unchanged:
the 0.5 minimum is not enforced. -/
theorem C3_setThreshold_warns_but_applies (st : BackendState) (v : ℚ) (now : Nat)
    (hA : st.globalLockdown.active = false) (hv : v < 1/2)
    (hlen : st.logs.length ≤ 98) :
    (setThreshold st v now).GLOBAL_THRESHOLD = v ∧
    countEvents (setThreshold st v now).logs "SYSTEM_ALERT" .CRITICAL =
      countEvents st.logs "SYSTEM_ALERT" .CRITICAL + 1 := by
  unfold setThreshold checkSystemLock
  simp only [hA, Bool.false_eq_true, if_false]
  rw [if_pos hv]
  rw [logEvent_eq_cons st.logs _ (by omega)]
  rw [logEvent_eq_cons _ _ (by simp; omega)]
  refine ⟨trivial, ?_⟩
  rw [countEvents_cons_noMatch _ _ _ _ (by simp), countEvents_cons_match _ _ _ _ rfl rfl]

theorem C3_witness :
    initialState.globalLockdown.active = false ∧ ((2 : ℚ)/5 < 1/2) ∧
    initialState.logs.length ≤ 98 ∧
    (setThreshold initialState (2/5) 7).GLOBAL_THRESHOLD = 2/5 :=
  ⟨rfl, by norm_num, by decide,
   (C3_setThreshold_warns_but_applies initialState (2/5) 7 rfl (by norm_num) (by decide)).1⟩
-- C4

/-- C4: three consecutive below-threshold finalizations for one identity
with no intervening success activate the lockdown exactly once, on the
third call, with the identity recorded and a 60-second expiry, and the
third call returns the blocked result; a successful match clears the
counter. -/
theorem C4_three_failures_trigger_lockdown (st : BackendState) (user : User)
    (s1 s2 s3 : ℚ) (ip : String) (m : Method) (atk : Bool) (t1 t2 t3 : Nat)
    (hA : st.globalLockdown.active = false)
    (h0 : alistGet st.impersonationStore user.username = none)
    (hs1 : s1 < st.GLOBAL_THRESHOLD) (hs2 : s2 < st.GLOBAL_THRESHOLD)
    (hs3 : s3 < st.GLOBAL_THRESHOLD)
    (hlen : st.logs.length ≤ 97) :
    (finalizeAuth st user s1 ip m atk t1).1.globalLockdown.active = false ∧
    (finalizeAuth (finalizeAuth st user s1 ip m atk t1).1 user s2 ip m atk t2).1.globalLockdown.active = false ∧
    alistGet (finalizeAuth (finalizeAuth st user s1 ip m atk t1).1 user s2 ip m atk t2).1.impersonationStore
      user.username = some { fails := 2, blockedUntil := 0 } ∧
    (finalizeAuth (finalizeAuth (finalizeAuth st user s1 ip m atk t1).1 user s2 ip m atk t2).1
      user s3 ip m atk t3).2.success = false ∧
    (finalizeAuth (finalizeAuth (finalizeAuth st user s1 ip m atk t1).1 user s2 ip m atk t2).1
      user s3 ip m atk t3).2.isBlocked = some true ∧
    (finalizeAuth (finalizeAuth (finalizeAuth st user s1 ip m atk t1).1 user s2 ip m atk t2).1
      user s3 ip m atk t3).2.retryAfter = some 60 ∧
    (finalizeAuth (finalizeAuth (finalizeAuth st user s1 ip m atk t1).1 user s2 ip m atk t2).1
      user s3 ip m atk t3).1.globalLockdown =
      { active := true, expiresAt := t3 + SYSTEM_LOCKDOWN_MS, triggeredBy := user.username } ∧
    countEvents (finalizeAuth (finalizeAuth (finalizeAuth st user s1 ip m atk t1).1 user s2 ip m atk t2).1
      user s3 ip m atk t3).1.logs "SYSTEM_SECURITY_LOCKDOWN" .CRITICAL =
      countEvents st.logs "SYSTEM_SECURITY_LOCKDOWN" .CRITICAL + 1 ∧
    (∀ (st0 : BackendState) (s : ℚ) (t : Nat), st0.GLOBAL_THRESHOLD ≤ s →
      alistGet (finalizeAuth st0 user s ip m atk t).1.impersonationStore user.username = none) := by
  have hm1 : ¬ (st.GLOBAL_THRESHOLD ≤ s1) := not_le.mpr hs1
  have hm2 : ¬ (st.GLOBAL_THRESHOLD ≤ s2) := not_le.mpr hs2
  have hm3 : ¬ (st.GLOBAL_THRESHOLD ≤ s3) := not_le.mpr hs3
  refine ⟨?_, ?_, ?_, ?_, ?_, ?_, ?_, ?_, ?_⟩
  · simp [finalizeAuth, hm1, h0, alistGet_set_self, IMPERSONATION_THRESHOLD, hA]
  · simp [finalizeAuth, hm1, hm2, h0, alistGet_set_self, IMPERSONATION_THRESHOLD, hA]
  · simp [finalizeAuth, hm1, hm2, h0, alistGet_set_self, IMPERSONATION_THRESHOLD]
  · simp [finalizeAuth, hm1, hm2, hm3, h0, alistGet_set_self, IMPERSONATION_THRESHOLD]
  · simp [finalizeAuth, hm1, hm2, hm3, h0, alistGet_set_self, IMPERSONATION_THRESHOLD]
  · simp [finalizeAuth, hm1, hm2, hm3, h0, alistGet_set_self, IMPERSONATION_THRESHOLD, SYSTEM_LOCKDOWN_MS]
  · simp [finalizeAuth, hm1, hm2, hm3, h0, alistGet_set_self, IMPERSONATION_THRESHOLD]
  · cases m <;>
      (simp [finalizeAuth, hm1, hm2, hm3, h0, alistGet_set_self, IMPERSONATION_THRESHOLD,
        logEvent, List.take_succ_cons, List.take_take, countEvents, List.filter_cons]
       rw [List.take_of_length_le hlen])
  · intro st0 s t hle
    simp [finalizeAuth, hle, alistGet_delete_self]

theorem C4_witness :
    stAlice.globalLockdown.active = false ∧
    alistGet stAlice.impersonationStore alice.username = none ∧
    ((1 : ℚ)/2 < stAlice.GLOBAL_THRESHOLD) ∧
    (finalizeAuth (finalizeAuth (finalizeAuth stAlice alice (1/2) "ip" .FACE false 0).1
        alice (1/2) "ip" .FACE false 1).1 alice (1/2) "ip" .FACE false 2).1.globalLockdown =
      { active := true, expiresAt := 2 + SYSTEM_LOCKDOWN_MS, triggeredBy := alice.username } := by
  have h := C4_three_failures_trigger_lockdown stAlice alice (1/2) (1/2) (1/2) "ip" .FACE false 0 1 2
    rfl rfl (by norm_num [stAlice, initialState]) (by norm_num [stAlice, initialState])
    (by norm_num [stAlice, initialState]) (by decide)
  exact ⟨rfl, rfl, by norm_num [stAlice, initialState], h.2.2.2.2.2.2.1⟩
-- C5

/-- C5: counterexample: a fingerprint user carrying a WebAuthn credential
with a tampered stored digest is accepted outright, so a verification of an
identity whose stored digest mismatches does not always return the
integrity-violation outcome. -/
theorem C5_counterexample :
    (constLeaves 1).secureHash fpTemplate.embedding fpTemplate.salt ≠ fpTemplate.dataHash ∧
    (verifyUser (constLeaves 1) stBob "u2" (some [1]) none "ip" false .FINGERPRINT 0).2.success = true ∧
    (verifyUser (constLeaves 1) stBob "u2" (some [1]) none "ip" false .FINGERPRINT 0).2.message =
      "Identity Verified" := by
  refine ⟨by decide, ?_, ?_⟩ <;>
    norm_num [verifyUser, checkSystemLock, checkRateLimit, finalizeAuth, stBob,
      initialState, bob, fpTemplate, constLeaves, alistGet, alistSet, alistDelete,
      logEvent, RATE_LIMIT_WINDOW_MS, MAX_ATTEMPTS_PER_WINDOW, IMPERSONATION_THRESHOLD,
      SYSTEM_LOCKDOWN_MS, TOKEN_EXPIRY_MS, List.filter, List.find?, Option.getD]

/-- C5 amended: every verification that reaches the integrity check (the
system unlocked, the origin admitted, the identity enrolled with the
matching algorithm, no WebAuthn credential bypass for fingerprint, the
liveness gate passed for face) and whose stored digest differs from the
recomputed digest returns the integrity-violation outcome, logged CRITICAL,
with no similarity score, unchanged statistics, impersonation counters and
sessions. -/
theorem C5_integrity_violation_short_circuits (L : Leaves) (st : BackendState)
    (userId : String) (emb : List ℚ) (o : Option ℚ) (ip : String) (atk : Bool)
    (m : Method) (now : Nat) (user : User) (tmpl : BiometricTemplate)
    (hA : st.globalLockdown.active = false)
    (hrate : ((((alistGet st.rateLimitStore ip).getD []).filter
        (fun t => now - t < RATE_LIMIT_WINDOW_MS)).length) < MAX_ATTEMPTS_PER_WINDOW)
    (hfind : st.users.find? (fun u => u.id = userId) = some user)
    (htmpl : user.biometricTemplate = some tmpl)
    (halgo : tmpl.algorithm = (match m with
      | .FINGERPRINT => Algorithm.Fingerprint_SHA256
      | .FACE => Algorithm.FaceID_v4))
    (hcred : m = .FINGERPRINT → tmpl.webAuthnCredentialId = none)
    (hlive : m = .FACE → ¬ L.calculateVariance emb < 1 / 50)
    (hhash : L.secureHash tmpl.embedding tmpl.salt ≠ tmpl.dataHash)
    (hlen : st.logs.length ≤ 99) :
    (verifyUser L st userId (some emb) o ip atk m now).2.success = false ∧
    (verifyUser L st userId (some emb) o ip atk m now).2.message =
      "CRITICAL: Data Integrity Violation. Account Locked." ∧
    (verifyUser L st userId (some emb) o ip atk m now).2.similarityScore = 0 ∧
    (verifyUser L st userId (some emb) o ip atk m now).1.stats = st.stats ∧
    (verifyUser L st userId (some emb) o ip atk m now).1.impersonationStore = st.impersonationStore ∧
    (verifyUser L st userId (some emb) o ip atk m now).1.activeSessions = st.activeSessions ∧
    countEvents (verifyUser L st userId (some emb) o ip atk m now).1.logs "SYSTEM_ALERT" .CRITICAL =
      countEvents st.logs "SYSTEM_ALERT" .CRITICAL + 1 := by
  have hlock : checkSystemLock st now = (st, { locked := false, remaining := 0 }) := by
    unfold checkSystemLock
    simp [hA]
  have hnle : ¬ (MAX_ATTEMPTS_PER_WINDOW ≤
      (((alistGet st.rateLimitStore ip).getD []).filter
        (fun t => now - t < RATE_LIMIT_WINDOW_MS)).length) := not_le.mpr hrate
  cases m with
  | FACE =>
      have hlv := hlive rfl
      simp only [verifyUser, hlock, hlv, hfind, htmpl, halgo, checkRateLimit,
        if_neg hnle, logEvent_eq_cons st.logs _ hlen,
        countEvents_cons_match _ _ _ _ rfl rfl, hhash, ne_eq, not_false_iff]
      simp [hhash, hlv, logEvent_eq_cons _ _ hlen,
        countEvents_cons_match _ _ _ _ rfl rfl]
  | FINGERPRINT =>
      have hcr := hcred rfl
      simp only [verifyUser, hlock, hfind, htmpl, halgo, checkRateLimit,
        if_neg hnle, hcr, logEvent_eq_cons st.logs _ hlen,
        countEvents_cons_match _ _ _ _ rfl rfl, hhash, ne_eq, not_false_iff]
      simp [hhash, hcr, logEvent_eq_cons _ _ hlen,
        countEvents_cons_match _ _ _ _ rfl rfl]
theorem C5_witness :
    stCarol.globalLockdown.active = false ∧
    (constLeaves 1).secureHash tamperedTemplate.embedding tamperedTemplate.salt ≠
      tamperedTemplate.dataHash ∧
    (verifyUser (constLeaves 1) stCarol "u3" (some [1/2]) none "ip" false .FACE 0).2.message =
      "CRITICAL: Data Integrity Violation. Account Locked." ∧
    (verifyUser (constLeaves 1) stCarol "u3" (some [1/2]) none "ip" false .FACE 0).1.stats =
      stCarol.stats := by
  have h := C5_integrity_violation_short_circuits (constLeaves 1) stCarol "u3" [1/2] none
    "ip" false .FACE 0 carol tamperedTemplate rfl (by decide) rfl rfl rfl
    (fun hc => nomatch hc) (fun _ => by norm_num [constLeaves]) (by decide) (by decide)
  exact ⟨rfl, by decide, h.2.1, h.2.2.2.1⟩
-- C6

/-- C6: five admitted attempts of one origin within the trailing window fill
it; a sixth inside the window is rejected without recording; an attempt 61
seconds after the earliest is admitted again because that entry is pruned. -/
theorem C6_rate_window (st : BackendState) (ip : String) (t1 t2 t3 t4 t5 t6 : Nat)
    (h0 : alistGet st.rateLimitStore ip = none)
    (h12 : t1 ≤ t2) (h23 : t2 ≤ t3) (h34 : t3 ≤ t4) (h45 : t4 ≤ t5) (h56 : t5 ≤ t6)
    (hwin : t6 - t1 < RATE_LIMIT_WINDOW_MS) :
    (runRateChecks st ip [t1, t2, t3, t4, t5]).2 = [true, true, true, true, true] ∧
    alistGet (runRateChecks st ip [t1, t2, t3, t4, t5]).1.rateLimitStore ip =
      some [t1, t2, t3, t4, t5] ∧
    (checkRateLimit (runRateChecks st ip [t1, t2, t3, t4, t5]).1 ip t6).2 = false ∧
    alistGet (checkRateLimit (runRateChecks st ip [t1, t2, t3, t4, t5]).1 ip t6).1.rateLimitStore ip =
      some [t1, t2, t3, t4, t5] ∧
    (checkRateLimit (runRateChecks st ip [t1, t2, t3, t4, t5]).1 ip
      (t1 + RATE_LIMIT_WINDOW_MS + 1000)).2 = true := by
  have w21 : t2 - t1 < RATE_LIMIT_WINDOW_MS := lt_of_le_of_lt (by omega) hwin
  have w31 : t3 - t1 < RATE_LIMIT_WINDOW_MS := lt_of_le_of_lt (by omega) hwin
  have w32 : t3 - t2 < RATE_LIMIT_WINDOW_MS := lt_of_le_of_lt (by omega) hwin
  have w41 : t4 - t1 < RATE_LIMIT_WINDOW_MS := lt_of_le_of_lt (by omega) hwin
  have w42 : t4 - t2 < RATE_LIMIT_WINDOW_MS := lt_of_le_of_lt (by omega) hwin
  have w43 : t4 - t3 < RATE_LIMIT_WINDOW_MS := lt_of_le_of_lt (by omega) hwin
  have w51 : t5 - t1 < RATE_LIMIT_WINDOW_MS := lt_of_le_of_lt (by omega) hwin
  have w52 : t5 - t2 < RATE_LIMIT_WINDOW_MS := lt_of_le_of_lt (by omega) hwin
  have w53 : t5 - t3 < RATE_LIMIT_WINDOW_MS := lt_of_le_of_lt (by omega) hwin
  have w54 : t5 - t4 < RATE_LIMIT_WINDOW_MS := lt_of_le_of_lt (by omega) hwin
  have w61 : t6 - t1 < RATE_LIMIT_WINDOW_MS := hwin
  have w62 : t6 - t2 < RATE_LIMIT_WINDOW_MS := lt_of_le_of_lt (by omega) hwin
  have w63 : t6 - t3 < RATE_LIMIT_WINDOW_MS := lt_of_le_of_lt (by omega) hwin
  have w64 : t6 - t4 < RATE_LIMIT_WINDOW_MS := lt_of_le_of_lt (by omega) hwin
  have w65 : t6 - t5 < RATE_LIMIT_WINDOW_MS := lt_of_le_of_lt (by omega) hwin
  refine ⟨?_, ?_, ?_, ?_, ?_⟩
  · simp [runRateChecks, checkRateLimit, h0, alistGet_set_self, MAX_ATTEMPTS_PER_WINDOW,
      w21, w31, w32, w41, w42, w43, w51, w52, w53, w54, logEvent]
  · simp [runRateChecks, checkRateLimit, h0, alistGet_set_self, MAX_ATTEMPTS_PER_WINDOW,
      w21, w31, w32, w41, w42, w43, w51, w52, w53, w54, logEvent]
  · simp [runRateChecks, checkRateLimit, h0, alistGet_set_self, MAX_ATTEMPTS_PER_WINDOW,
      w21, w31, w32, w41, w42, w43, w51, w52, w53, w54, w61, w62, w63, w64, w65, logEvent]
  · simp [runRateChecks, checkRateLimit, h0, alistGet_set_self, MAX_ATTEMPTS_PER_WINDOW,
      w21, w31, w32, w41, w42, w43, w51, w52, w53, w54, w61, w62, w63, w64, w65, logEvent]
  · have hget : alistGet (runRateChecks st ip [t1, t2, t3, t4, t5]).1.rateLimitStore ip =
        some [t1, t2, t3, t4, t5] := by
      simp [runRateChecks, checkRateLimit, h0, alistGet_set_self, MAX_ATTEMPTS_PER_WINDOW,
        w21, w31, w32, w41, w42, w43, w51, w52, w53, w54, logEvent]
    have hfalse : ¬ (t1 + RATE_LIMIT_WINDOW_MS + 1000 - t1 < RATE_LIMIT_WINDOW_MS) := by omega
    have hlen4 : (List.filter
        (fun t => decide (t1 + RATE_LIMIT_WINDOW_MS + 1000 - t < RATE_LIMIT_WINDOW_MS))
        [t1, t2, t3, t4, t5]).length ≤ 4 := by
      rw [List.filter_cons, decide_eq_false hfalse]
      simpa using List.length_filter_le
        (fun t => decide (t1 + RATE_LIMIT_WINDOW_MS + 1000 - t < RATE_LIMIT_WINDOW_MS))
        [t2, t3, t4, t5]
    unfold checkRateLimit
    rw [hget]
    simp only [Option.getD_some]
    rw [if_neg (by simp only [MAX_ATTEMPTS_PER_WINDOW]; omega)]
theorem C6_witness :
    alistGet initialState.rateLimitStore "10.0.0.9" = none ∧
    (runRateChecks initialState "10.0.0.9" [0, 10000, 20000, 30000, 40000]).2 =
      [true, true, true, true, true] ∧
    (checkRateLimit (runRateChecks initialState "10.0.0.9" [0, 10000, 20000, 30000, 40000]).1
      "10.0.0.9" 50000).2 = false ∧
    (checkRateLimit (runRateChecks initialState "10.0.0.9" [0, 10000, 20000, 30000, 40000]).1
      "10.0.0.9" (0 + RATE_LIMIT_WINDOW_MS + 1000)).2 = true := by
  have h := C6_rate_window initialState "10.0.0.9" 0 10000 20000 30000 40000 50000 rfl
    (by omega) (by omega) (by omega) (by omega) (by omega) (by decide)
  exact ⟨rfl, h.1, h.2.2.1, h.2.2.2.2⟩
-- C7

/-- C7: an active expired lock is lifted exactly once with one INFO event;
repeated checks stay unlocked and silent; an active unexpired lock reports
the remaining seconds rounded up. -/
theorem C7_lock_expiry_idempotent (st : BackendState) (now : Nat)
    (hA : st.globalLockdown.active = true) (hlen : st.logs.length ≤ 99) :
    (st.globalLockdown.expiresAt < now →
      (checkSystemLock st now).2 = { locked := false, remaining := 0 } ∧
      (checkSystemLock st now).1.globalLockdown.active = false ∧
      countEvents (checkSystemLock st now).1.logs "SYSTEM_ALERT" .INFO =
        countEvents st.logs "SYSTEM_ALERT" .INFO + 1 ∧
      (∀ now2 : Nat, checkSystemLock (checkSystemLock st now).1 now2 =
        ((checkSystemLock st now).1, { locked := false, remaining := 0 }))) ∧
    (now ≤ st.globalLockdown.expiresAt →
      checkSystemLock st now =
        (st, { locked := true,
               remaining := ⌈((st.globalLockdown.expiresAt - now : Nat) : ℚ) / 1000⌉₊ })) := by
  constructor
  · intro hexp
    unfold checkSystemLock
    simp only [hA, if_true, if_pos hexp]
    rw [logEvent_eq_cons _ _ hlen]
    refine ⟨trivial, trivial, ?_, ?_⟩
    · rw [countEvents_cons_match _ _ _ _ rfl rfl]
    · intro now2
      rfl
  · intro hexp
    unfold checkSystemLock
    simp only [hA, if_true]
    rw [if_neg (not_lt.mpr hexp), ceil_thousand]

theorem C7_witness :
    lockedState.globalLockdown.active = true ∧ lockedState.logs.length ≤ 99 ∧
    lockedState.globalLockdown.expiresAt < 70000 ∧ (30000 : Nat) ≤ lockedState.globalLockdown.expiresAt ∧
    (checkSystemLock lockedState 70000).2 = { locked := false, remaining := 0 } ∧
    checkSystemLock lockedState 30000 =
      (lockedState,
       { locked := true,
         remaining := ⌈((lockedState.globalLockdown.expiresAt - 30000 : Nat) : ℚ) / 1000⌉₊ }) :=
  ⟨rfl, by decide, by decide, by decide,
   ((C7_lock_expiry_idempotent lockedState 70000 rfl (by decide)).1 (by decide)).1,
   (C7_lock_expiry_idempotent lockedState 30000 rfl (by decide)).2 (by decide)⟩
-- C8

/-- C8: while the lock is active and unexpired, verifyUser returns the
blocked result with the whole state unchanged (no rate-limit slot, no
statistics, counters, sessions or users touched) and setThreshold is a
no-op. -/
theorem C8_locked_frame (st : BackendState) (now : Nat)
    (hA : st.globalLockdown.active = true)
    (hE : now ≤ st.globalLockdown.expiresAt) :
    (∀ (L : Leaves) (userId : String) (emb : Option (List ℚ)) (o : Option ℚ)
        (ip : String) (atk : Bool) (m : Method),
      verifyUser L st userId emb o ip atk m now =
        (st, { success := false,
               message := "SYSTEM LOCKED. Threat containment active. Retry in " ++
                 toString ((st.globalLockdown.expiresAt - now + 999) / 1000) ++ "s.",
               similarityScore := 0, isBlocked := some true,
               retryAfter := some ((st.globalLockdown.expiresAt - now + 999) / 1000) })) ∧
    (∀ v : ℚ, setThreshold st v now = st) := by
  have hlock : checkSystemLock st now =
      (st, { locked := true,
             remaining := (st.globalLockdown.expiresAt - now + 999) / 1000 }) := by
    unfold checkSystemLock
    simp only [hA, if_true]
    rw [if_neg (not_lt.mpr hE)]
  constructor
  · intro L userId emb o ip atk m
    unfold verifyUser
    rw [hlock]
    rfl
  · intro v
    unfold setThreshold
    rw [hlock]
    rfl


theorem C8_witness :
    lockedState.globalLockdown.active = true ∧
    (30000 : Nat) ≤ lockedState.globalLockdown.expiresAt ∧
    verifyUser (constLeaves 1) lockedState "u1" (some [1]) none "ip" false .FACE 30000 =
      (lockedState,
       { success := false,
         message := "SYSTEM LOCKED. Threat containment active. Retry in " ++
           toString ((lockedState.globalLockdown.expiresAt - 30000 + 999) / 1000) ++ "s.",
         similarityScore := 0, isBlocked := some true,
         retryAfter := some ((lockedState.globalLockdown.expiresAt - 30000 + 999) / 1000) }) ∧
    setThreshold lockedState (2/5) 30000 = lockedState :=
  ⟨rfl, by decide,
   (C8_locked_frame lockedState 30000 rfl (by decide)).1 (constLeaves 1) "u1" (some [1]) none "ip" false .FACE,
   (C8_locked_frame lockedState 30000 rfl (by decide)).2 (2/5)⟩
-- C9

/-- C9: a fingerprint-enrolled user whose template carries a WebAuthn
credential id is finalized directly at the fixed score 0.99 on any
non-empty sample, skipping the liveness and integrity checks, and is
accepted whenever 0.99 meets the threshold, even with a tampered digest. -/
theorem C9_webauthn_bypasses_integrity (L : Leaves) (st : BackendState)
    (userId : String) (emb : List ℚ) (o : Option ℚ) (ip : String) (now : Nat)
    (user : User) (tmpl : BiometricTemplate) (cid : String)
    (hA : st.globalLockdown.active = false)
    (hrate : ((((alistGet st.rateLimitStore ip).getD []).filter
        (fun t => now - t < RATE_LIMIT_WINDOW_MS)).length) < MAX_ATTEMPTS_PER_WINDOW)
    (hfind : st.users.find? (fun u => u.id = userId) = some user)
    (htmpl : user.biometricTemplate = some tmpl)
    (halgo : tmpl.algorithm = .Fingerprint_SHA256)
    (hcred : tmpl.webAuthnCredentialId = some cid)
    (hemb : emb ≠ [])
    (hhash : L.secureHash tmpl.embedding tmpl.salt ≠ tmpl.dataHash)
    (hthr : st.GLOBAL_THRESHOLD ≤ 99 / 100) :
    verifyUser L st userId (some emb) o ip false .FINGERPRINT now =
      finalizeAuth (checkRateLimit st ip now).1 user (99 / 100) ip .FINGERPRINT false now ∧
    (verifyUser L st userId (some emb) o ip false .FINGERPRINT now).2.success = true ∧
    (verifyUser L st userId (some emb) o ip false .FINGERPRINT now).2.similarityScore = 99 / 100 := by
  have hlock : checkSystemLock st now = (st, { locked := false, remaining := 0 }) := by
    unfold checkSystemLock
    simp [hA]
  have hnle : ¬ (MAX_ATTEMPTS_PER_WINDOW ≤
      (((alistGet st.rateLimitStore ip).getD []).filter
        (fun t => now - t < RATE_LIMIT_WINDOW_MS)).length) := not_le.mpr hrate
  refine ⟨?_, ?_, ?_⟩ <;>
    simp [verifyUser, hlock, hfind, htmpl, halgo, hcred, hemb, checkRateLimit,
      if_neg hnle, finalizeAuth, hthr]

theorem C9_witness :
    stBob.globalLockdown.active = false ∧
    fpTemplate.webAuthnCredentialId = some "cred" ∧
    (constLeaves 1).secureHash fpTemplate.embedding fpTemplate.salt ≠ fpTemplate.dataHash ∧
    stBob.GLOBAL_THRESHOLD ≤ 99 / 100 ∧
    (verifyUser (constLeaves 1) stBob "u2" (some [1]) none "ip" false .FINGERPRINT 0).2.success = true := by
  have h := C9_webauthn_bypasses_integrity (constLeaves 1) stBob "u2" [1] none "ip" 0
    bob fpTemplate "cred" rfl (by decide) rfl rfl rfl rfl (by decide) (by decide)
    (by norm_num [stBob, initialState])
  exact ⟨rfl, rfl, by decide, by norm_num [stBob, initialState], h.2.1⟩
-- C10

/-- C10: a below-threshold finalization always advances the stored
consecutive-failure counter (the lockdown-triggering failure does not reset
it; only a match clears it), so once the lock has expired, a single further
below-threshold verification of the same identity triggers a new lockdown
immediately. -/
theorem C10_counter_survives_lockdown :
    (∀ (st : BackendState) (user : User) (s : ℚ) (ip : String) (m : Method)
        (atk : Bool) (now : Nat) (k b : Nat),
      alistGet st.impersonationStore user.username = some { fails := k, blockedUntil := b } →
      s < st.GLOBAL_THRESHOLD →
      alistGet (finalizeAuth st user s ip m atk now).1.impersonationStore user.username =
        some { fails := k + 1, blockedUntil := 0 }) ∧
    (∀ (L : Leaves) (st : BackendState) (userId : String) (emb : List ℚ)
        (o : Option ℚ) (ip : String) (atk : Bool) (now : Nat)
        (user : User) (tmpl : BiometricTemplate) (k b : Nat),
      st.globalLockdown.active = true →
      st.globalLockdown.expiresAt < now →
      ((((alistGet st.rateLimitStore ip).getD []).filter
        (fun t => now - t < RATE_LIMIT_WINDOW_MS)).length) < MAX_ATTEMPTS_PER_WINDOW →
      st.users.find? (fun u => u.id = userId) = some user →
      user.biometricTemplate = some tmpl →
      tmpl.algorithm = .FaceID_v4 →
      ¬ L.calculateVariance emb < 1 / 50 →
      L.secureHash tmpl.embedding tmpl.salt = tmpl.dataHash →
      alistGet st.impersonationStore user.username = some { fails := k, blockedUntil := b } →
      IMPERSONATION_THRESHOLD ≤ k →
      L.calculateSimilarity emb tmpl.embedding < st.GLOBAL_THRESHOLD →
      (verifyUser L st userId (some emb) o ip atk .FACE now).2.isBlocked = some true ∧
      (verifyUser L st userId (some emb) o ip atk .FACE now).2.retryAfter = some 60 ∧
      (verifyUser L st userId (some emb) o ip atk .FACE now).1.globalLockdown =
        { active := true, expiresAt := now + SYSTEM_LOCKDOWN_MS,
          triggeredBy := user.username }) := by
  constructor
  · intro st user s ip m atk now k b hk hs
    by_cases htr : IMPERSONATION_THRESHOLD ≤ k + 1 <;>
      simp [finalizeAuth, not_le.mpr hs, hk, alistGet_set_self, htr]
  · intro L st userId emb o ip atk now user tmpl k b hA hexp hrate hfind htmpl halgo
      hlv hgood hk hk3 hsim
    have hlock : checkSystemLock st now =
        ({ st with
            globalLockdown :=
              { active := false, expiresAt := st.globalLockdown.expiresAt,
                triggeredBy := "" },
            logs := logEvent st.logs
              { eventType := "SYSTEM_ALERT", severity := .INFO, sourceIp := "SYSTEM" } },
         { locked := false, remaining := 0 }) := by
      unfold checkSystemLock
      simp [hA, if_pos hexp]
    have hnle : ¬ (MAX_ATTEMPTS_PER_WINDOW ≤
        (((alistGet st.rateLimitStore ip).getD []).filter
          (fun t => now - t < RATE_LIMIT_WINDOW_MS)).length) := not_le.mpr hrate
    have htr : IMPERSONATION_THRESHOLD ≤ k + 1 := le_trans hk3 (Nat.le_succ k)
    have hlv2 : ¬ L.calculateVariance emb < (50 : ℚ)⁻¹ := by rwa [one_div] at hlv
    refine ⟨?_, ?_, ?_⟩ <;>
      simp [verifyUser, hlock, hfind, htmpl, halgo, hlv, hlv2, hgood, checkRateLimit,
        if_neg hnle, finalizeAuth, not_le.mpr hsim, hk, htr, SYSTEM_LOCKDOWN_MS]
theorem C10_witness :
    alistGet stRelock.impersonationStore alice.username =
      some { fails := 3, blockedUntil := 0 } ∧
    stRelock.globalLockdown.active = true ∧
    stRelock.globalLockdown.expiresAt < 61000 ∧
    alistGet (finalizeAuth stRelock alice (1/2) "ip" .FACE false 0).1.impersonationStore
      alice.username = some { fails := 4, blockedUntil := 0 } ∧
    (verifyUser (constLeaves (1/2)) stRelock "u1" (some [1]) none "ip" false .FACE 61000).2.isBlocked =
      some true ∧
    (verifyUser (constLeaves (1/2)) stRelock "u1" (some [1]) none "ip" false .FACE 61000).1.globalLockdown =
      { active := true, expiresAt := 61000 + SYSTEM_LOCKDOWN_MS, triggeredBy := alice.username } := by
  have h1 := C10_counter_survives_lockdown.1 stRelock alice (1/2) "ip" .FACE false 0 3 0
    rfl (by norm_num [stRelock, initialState])
  have h2 := C10_counter_survives_lockdown.2 (constLeaves (1/2)) stRelock "u1" [1] none
    "ip" false 61000 alice faceTemplate 3 0 rfl (by decide) (by decide) rfl rfl rfl
    (by norm_num [constLeaves]) rfl rfl (by decide)
    (by norm_num [constLeaves, stRelock, initialState])
  exact ⟨rfl, rfl, by decide, h1, h2.1, h2.2.2⟩
